import Mathlib

/-!
Verification development for the warehouse operations tracking application
(staging / loading check-sheet workflow).  The definitions below are a shallow
embedding of the application's data model and of the operations implemented in
`src/components/StagingSheet.tsx` and `src/components/AdminDashboard.tsx`,
with the enumerations and record shapes taken from the shared types module.
Numeric form fields that may be blank (the empty string in the form state) are
modelled as `Option Int`, with `none` standing for the blank string; JavaScript
`Number('') = 0` coercion is the function `blankZero`.
-/

namespace Warehouse

/-! ## Executable models of the JavaScript string primitives -/

/-- Drop whitespace from both ends of a character list. -/
def trimChars (l : List Char) : List Char :=
  ((l.dropWhile Char.isWhitespace).reverse.dropWhile Char.isWhitespace).reverse

/-- JavaScript `String.prototype.trim()`. -/
def jsTrim (s : String) : String := ⟨trimChars s.data⟩

/-- JavaScript `String.prototype.toLowerCase()` (ASCII case folding). -/
def jsToLower (s : String) : String := ⟨s.data.map Char.toLower⟩

/-- Does `sub` occur as a contiguous run inside `s`? -/
def charsContain (sub : List Char) : List Char → Bool
  | [] => sub.isPrefixOf []
  | c :: t => sub.isPrefixOf (c :: t) || charsContain sub t

/-- JavaScript `String.prototype.includes()`. -/
def jsIncludes (s sub : String) : Bool := charsContain sub.data s.data

/-- The five sheet workflow states, from the `SheetStatus` enum. -/
inductive SheetStatus where
  | DRAFT
  | STAGING_VERIFICATION_PENDING
  | LOCKED
  | LOADING_VERIFICATION_PENDING
  | COMPLETED
deriving DecidableEq, Repr

/-- Position of a status in the forward five-state sequence. -/
def statusIndex : SheetStatus → Nat
  | .DRAFT => 0
  | .STAGING_VERIFICATION_PENDING => 1
  | .LOCKED => 2
  | .LOADING_VERIFICATION_PENDING => 3
  | .COMPLETED => 4

/-- User roles, from the `Role` enum. -/
inductive Role where
  | ADMIN
  | STAGING_SUPERVISOR
  | LOADING_SUPERVISOR
  | SHIFT_LEAD
  | VIEWER
deriving DecidableEq, Repr

/-- A persisted staging line item (`StagingItem` in the types module): all
numeric fields are numbers. -/
structure StagingItem where
  srNo : Nat
  skuName : String
  casesPerPlt : Int
  fullPlt : Int
  loose : Int
  ttlCases : Int
deriving DecidableEq, Repr

/-- A staging row as held in the form state of `StagingSheet`: the numeric
fields may be the blank string, modelled as `none`. -/
structure FormItem where
  srNo : Nat
  skuName : String
  casesPerPlt : Option Int
  fullPlt : Option Int
  loose : Option Int
  ttlCases : Option Int
deriving DecidableEq, Repr

/-- JavaScript `Number` coercion of a possibly-blank numeric field:
`Number('') = 0`, a number is itself. -/
def blankZero : Option Int → Int
  | none => 0
  | some v => v

/-- One cell of the loading matrix (`LoadingCell`). -/
structure LoadingCell where
  row : Nat
  col : Nat
  value : Int
deriving DecidableEq, Repr

/-- A derived loading line (`LoadingItemData`), referencing a staging row by
serial number. -/
structure LoadingItemData where
  skuSrNo : Nat
  cells : List LoadingCell
  looseInput : Int
  total : Int
  balance : Int
deriving DecidableEq, Repr

/-- An additional-items row (`AdditionalItem`). -/
structure AdditionalItem where
  id : Nat
  skuName : String
  counts : List Int
  total : Int
deriving DecidableEq, Repr

/-- One entry of a sheet's append-only history log (`HistoryLog`). -/
structure HistoryLog where
  id : String
  actor : String
  action : String
  timestamp : String
  details : String
deriving DecidableEq, Repr

/-- The sheet record (`SheetData`), restricted to the fields the verified
operations read or write.  Optional fields of the interface are `Option`s. -/
structure SheetData where
  id : String
  status : SheetStatus
  version : Nat
  shift : String
  date : String
  destination : String
  supervisorName : String
  empCode : String
  loadingDockNo : String
  stagingItems : List StagingItem
  loadingItems : List LoadingItemData
  additionalItems : List AdditionalItem
  createdBy : String
  createdAt : String
  completedBy : Option String
  completedAt : Option String
  lockedBy : Option String
  lockedAt : Option String
  stagingApprovedBy : Option String
  stagingApprovedAt : Option String
  slSign : Option String
  rejectionReason : Option String
  loadingSvName : Option String
  driverName : Option String
  vehicleNo : Option String
  history : List HistoryLog
deriving DecidableEq, Repr

/-! ## Staging item editing (`StagingSheet.tsx`) -/

/-- The editable fields of a staging row targeted by `handleItemChange`. -/
inductive ItemField where
  | skuName (value : String)
  | casesPerPlt (value : Option Int)
  | fullPlt (value : Option Int)
  | loose (value : Option Int)
deriving DecidableEq, Repr

/-- Core of `handleItemChange` on one row: write the edited field, then
recompute `ttlCases = cases * full + loose` treating blanks as 0. -/
def applyItemChange (it : FormItem) : ItemField → FormItem
  | .skuName v =>
    let it' := { it with skuName := v }
    { it' with ttlCases := some (blankZero it'.casesPerPlt * blankZero it'.fullPlt
        + blankZero it'.loose) }
  | .casesPerPlt v =>
    let it' := { it with casesPerPlt := v }
    { it' with ttlCases := some (blankZero it'.casesPerPlt * blankZero it'.fullPlt
        + blankZero it'.loose) }
  | .fullPlt v =>
    let it' := { it with fullPlt := v }
    { it' with ttlCases := some (blankZero it'.casesPerPlt * blankZero it'.fullPlt
        + blankZero it'.loose) }
  | .loose v =>
    let it' := { it with loose := v }
    { it' with ttlCases := some (blankZero it'.casesPerPlt * blankZero it'.fullPlt
        + blankZero it'.loose) }

/-- The function `handleItemChange` on the whole list: the row at position
`index` is replaced, all other rows are kept. -/
def handleItemChange (items : List FormItem) (index : Nat) (f : ItemField) :
    List FormItem :=
  match items, index with
  | [], _ => []
  | h :: t, 0 => applyItemChange h f :: t
  | h :: t, k + 1 => h :: handleItemChange t k f

/-- Re-stamp serial numbers to consecutive values starting at `k`. -/
def reindexFrom (k : Nat) : List FormItem → List FormItem
  | [] => []
  | it :: l => { it with srNo := k } :: reindexFrom (k + 1) l

/-- The re-index step of `handleRemoveItem`: 1-based consecutive `srNo`. -/
def reindex (l : List FormItem) : List FormItem := reindexFrom 1 l

/-- Remove the row at position `index` (JavaScript
`filter((_, i) => i !== index)`); an out-of-range index removes nothing. -/
def removeAt (items : List FormItem) (index : Nat) : List FormItem :=
  match items, index with
  | [], _ => []
  | _ :: t, 0 => t
  | h :: t, k + 1 => h :: removeAt t k

/-- The function `handleRemoveItem`: refuse when only one row remains, do nothing when the
confirmation dialog is cancelled, otherwise drop the row and re-index. -/
def handleRemoveItem (items : List FormItem) (index : Nat) (confirmOk : Bool) :
    List FormItem :=
  if items.length ≤ 1 then items
  else if confirmOk then reindex (removeAt items index)
  else items

/-- The function `handleAddItem`: append a blank row with `srNo = length + 1`. -/
def handleAddItem (items : List FormItem) : List FormItem :=
  items ++ [{ srNo := items.length + 1, skuName := "", casesPerPlt := none,
              fullPlt := none, loose := none, ttlCases := none }]

/-- The displayed Total Staging Qty: `reduce((acc, item) => acc +
(Number(item.ttlCases) || 0), 0)` over the form rows. -/
def totalQty (items : List FormItem) : Int :=
  items.foldl (fun acc it => acc + blankZero it.ttlCases) 0

/-! ## Validation and save (`StagingSheet.tsx`) -/

/-- The function `validateForm`: in strict (lock) mode require destination, dock number and
at least one named row; the row message is only pushed when no earlier error
was recorded. -/
def validateForm (destination loadingDockNo : String) (items : List FormItem)
    (strict : Bool) : List String :=
  let errors :=
    (if strict = true ∧ jsTrim destination = "" then ["Destination is required"]
     else [])
      ++ (if strict = true ∧ jsTrim loadingDockNo = "" then
            ["Loading Dock No is required"]
          else [])
  let hasAtLeastOneItem := items.any (fun it => jsTrim it.skuName ≠ "")
  if strict = true ∧ hasAtLeastOneItem = false ∧ errors.length = 0 then
    errors ++ ["At least one valid item row (SKU Name) is required to lock."]
  else errors

/-- The persisted form of a staging row built by `handleSave`: blanks become 0
and the total is recomputed. -/
def finalizeItem (it : FormItem) : StagingItem :=
  let c := blankZero it.casesPerPlt
  let f := blankZero it.fullPlt
  let l := blankZero it.loose
  { srNo := it.srNo, skuName := it.skuName, casesPerPlt := c, fullPlt := f,
    loose := l, ttlCases := c * f + l }

/-- The valid staging items used to derive loading rows: truthy name and
strictly positive total. -/
def validStagingItems (finalItems : List StagingItem) : List StagingItem :=
  finalItems.filter (fun it => it.skuName ≠ "" && it.ttlCases > 0)

/-- The loading-item derivation of `handleSave` on a lock request: one row per
valid staging item; a pre-existing loading row with the same serial number is
carried over with `balance = ttlCases - total`, otherwise a fresh row with
`total = 0`, no cells, and `balance = ttlCases` is created. -/
def deriveLoadingItems (finalItems : List StagingItem)
    (prior : List LoadingItemData) : List LoadingItemData :=
  (validStagingItems finalItems).map (fun s =>
    match prior.find? (fun li => li.skuSrNo = s.srNo) with
    | some li => { li with balance := s.ttlCases - li.total }
    | none => { skuSrNo := s.srNo, cells := [], looseInput := 0, total := 0,
                balance := s.ttlCases })

/-- The fixed five-row additional-items skeleton seeded at lock time. -/
def seededAdditionalItems : List AdditionalItem :=
  (List.range 5).map (fun i =>
    { id := i + 1, skuName := "", counts := List.replicate 10 0, total := 0 })

/-- Seeding step of `handleSave`: the additional-items array is replaced by the
skeleton only when it is absent (empty). -/
def seedAdditionalIfAbsent (prior : List AdditionalItem) : List AdditionalItem :=
  if prior.length = 0 then seededAdditionalItems else prior

/-- Shorthand for a form row used by concrete witnesses below. -/
def mkFormItem (n : Nat) (name : String) (c f l t : Option Int) : FormItem :=
  { srNo := n, skuName := name, casesPerPlt := c, fullPlt := f, loose := l,
    ttlCases := t }

/-- Shorthand for a persisted staging row used by concrete witnesses below. -/
def mkStagingItem (n : Nat) (name : String) (c f l t : Int) : StagingItem :=
  { srNo := n, skuName := name, casesPerPlt := c, fullPlt := f, loose := l,
    ttlCases := t }

example : validateForm "" "D1" [mkFormItem 1 "A" none none none none] true
    = ["Destination is required"] := by decide

example :
    deriveLoadingItems
      [mkStagingItem 1 "A" 5 2 0 10, mkStagingItem 2 "" 0 0 0 0] []
    = [{ skuSrNo := 1, cells := [], looseInput := 0, total := 0, balance := 10 }] := by
  decide

/-! ## Users and the save/approve/unlock operations -/

/-- JavaScript `a || b` on strings: the empty string is falsy. -/
def jsOrStr (a b : String) : String := if a = "" then b else a

/-- The logged-in user as seen by the components (`currentUser`). -/
structure UserCtx where
  username : String
  fullName : String
  empCode : String
  role : Role
deriving DecidableEq, Repr

/-- The form state of `StagingSheet` fed into `handleSave`. -/
structure SaveForm where
  shift : String
  date : String
  destination : String
  supervisorName : String
  empCode : String
  loadingDockNo : String
  items : List FormItem
deriving DecidableEq, Repr

/-- Modelled from the spec: the `AppContext` module holding `acquireLock` is
not part of the source snapshot; per section 4.2 a single global set of
currently-being-edited sheet ids is consulted, and acquisition is
all-or-nothing: it fails, leaving the set unchanged, exactly when the id is
already in the set. -/
def acquireLock (locks : List String) (id : String) : Bool × List String :=
  if id ∈ locks then (false, locks) else (true, id :: locks)

/-- Modelled from the spec: the `AppContext` module holding `releaseLock` is
not part of the source snapshot; releasing removes the id from the global set
of currently-being-edited sheet ids. -/
def releaseLock (locks : List String) (id : String) : List String :=
  locks.filter (fun x => x ≠ id)

/-- Outcome of one `handleSave` call. -/
inductive SaveOutcome where
  | validationFailed (errors : List String)
  | lockBlocked
  | threw
  | saved (sheet : SheetData)
deriving DecidableEq, Repr

/-- Result of one `handleSave` call: the outcome, the advisory-lock set after
the call, and the sheet written to the backend (if any). -/
structure SaveResult where
  outcome : SaveOutcome
  locks : List String
  written : Option SheetData
deriving DecidableEq, Repr

/-- The sheet id used by `handleSave`: the existing sheet's id, or the freshly
generated one. -/
def savedSheetId (existingSheet : Option SheetData) (newId : String) : String :=
  match existingSheet with
  | some s => s.id
  | none => newId

/-- The `SheetData` object constructed by `handleSave` (after validation and,
on a lock request, after the loading-item derivation).  Approval metadata and
completion metadata are not carried over by the construction in the source. -/
def builtSheet (existingSheet : Option SheetData) (form : SaveForm)
    (user : Option UserCtx) (newId now : String) (lockFlag : Bool) : SheetData :=
  let finalItems := form.items.map finalizeItem
  let priorLoading := match existingSheet with
    | some s => s.loadingItems
    | none => []
  let priorAdditional := match existingSheet with
    | some s => s.additionalItems
    | none => []
  { id := savedSheetId existingSheet newId
    status := if lockFlag then .STAGING_VERIFICATION_PENDING else .DRAFT
    version := match existingSheet with | some s => s.version | none => 0
    shift := form.shift
    date := form.date
    destination := form.destination
    supervisorName := form.supervisorName
    empCode := form.empCode
    loadingDockNo := form.loadingDockNo
    stagingItems := finalItems
    loadingItems := if lockFlag then deriveLoadingItems finalItems priorLoading
                    else priorLoading
    additionalItems := if lockFlag then seedAdditionalIfAbsent priorAdditional
                       else priorAdditional
    createdBy := jsOrStr (match existingSheet with | some s => s.createdBy | none => "")
      (jsOrStr (match user with | some u => u.username | none => "") "Unknown")
    createdAt := jsOrStr (match existingSheet with | some s => s.createdAt | none => "") now
    completedBy := none
    completedAt := none
    lockedBy := if lockFlag then user.map (fun u => u.username)
                else existingSheet.bind (fun s => s.lockedBy)
    lockedAt := if lockFlag then some now
                else existingSheet.bind (fun s => s.lockedAt)
    stagingApprovedBy := none
    stagingApprovedAt := none
    slSign := existingSheet.bind (fun s => s.slSign)
    rejectionReason := none
    loadingSvName := existingSheet.bind (fun s => s.loadingSvName)
    driverName := existingSheet.bind (fun s => s.driverName)
    vehicleNo := existingSheet.bind (fun s => s.vehicleNo)
    history := match existingSheet with | some s => s.history | none => [] }

/-- The function `handleSave` of `StagingSheet`: validate (strictly on a lock
request), acquire the advisory lock on a lock request, build and write the
sheet, and release the advisory lock only on the successful lock path.  The
flag `saveThrows` models the backend write throwing: the `catch` block shows
an alert and performs no lock release. -/
def handleSave (existingSheet : Option SheetData) (form : SaveForm)
    (user : Option UserCtx) (newId now : String) (saveThrows : Bool)
    (lockFlag : Bool) (locks : List String) : SaveResult :=
  let errors := validateForm form.destination form.loadingDockNo form.items lockFlag
  if errors.length > 0 then
    { outcome := .validationFailed errors, locks := locks, written := none }
  else
    let sheetId := savedSheetId existingSheet newId
    if lockFlag then
      let acq := acquireLock locks sheetId
      if !acq.1 then { outcome := .lockBlocked, locks := locks, written := none }
      else
        let sheet := builtSheet existingSheet form user newId now true
        if saveThrows then { outcome := .threw, locks := acq.2, written := none }
        else { outcome := .saved sheet, locks := releaseLock acq.2 sheetId,
               written := some sheet }
    else
      let sheet := builtSheet existingSheet form user newId now false
      if saveThrows then { outcome := .threw, locks := locks, written := none }
      else { outcome := .saved sheet, locks := locks, written := some sheet }

/-- The fresh loading rows generated by `handleApprove` when none exist. -/
def approveFreshLoadingItems (stagingItems : List StagingItem) :
    List LoadingItemData :=
  (validStagingItems stagingItems).map (fun s =>
    { skuSrNo := s.srNo, cells := [], looseInput := 0, total := 0,
      balance := s.ttlCases })

/-- The function `handleApprove` of `StagingSheet` (shift-lead action on a
pending sheet).  Approval (confirmed) locks the sheet, stamps the approval
metadata and, only when no loading rows exist yet, generates them and replaces
the additional-items skeleton.  Rejection requires a non-empty reason and
returns the sheet to DRAFT with the reason recorded and a history entry
appended. -/
def handleApprove (sheet : SheetData) (user : Option UserCtx) (now : String)
    (approveFlag confirmOk : Bool) (reason : String) (hid : String) :
    Option SheetData :=
  if approveFlag then
    if confirmOk then
      let u1 := { sheet with
        status := .LOCKED
        stagingApprovedBy := user.map (fun u => u.username)
        stagingApprovedAt := some now
        slSign := user.map (fun u => u.fullName)
        lockedBy := user.map (fun u => u.username)
        lockedAt := some now }
      if u1.loadingItems.length = 0 then
        some { u1 with loadingItems := approveFreshLoadingItems u1.stagingItems,
                       additionalItems := seededAdditionalItems }
      else some u1
    else none
  else
    if reason ≠ "" then
      some { sheet with
        status := .DRAFT
        rejectionReason := some reason
        history := sheet.history ++
          [{ id := hid
             actor := jsOrStr (match user with | some u => u.username | none => "") "Unknown"
             action := "REJECTED_STAGING"
             timestamp := now
             details := "Rejected: " ++ reason ++ " " }] }
    else none

/-- The status regression map of `handleUnlockSheet`. -/
def unlockTarget : SheetStatus → Option SheetStatus
  | .COMPLETED => some .LOADING_VERIFICATION_PENDING
  | .LOCKED => some .STAGING_VERIFICATION_PENDING
  | .LOADING_VERIFICATION_PENDING => some .DRAFT
  | .STAGING_VERIFICATION_PENDING => some .DRAFT
  | .DRAFT => none

/-- The function `handleUnlockSheet` of `AdminDashboard`: admins only; a
regression target must exist, the confirm dialog must be accepted and a
non-empty free-text reason entered; the write updates just the status. -/
def handleUnlockSheet (role : Role) (sheet : SheetData) (confirmOk : Bool)
    (reason : String) : Option SheetData :=
  if role ≠ .ADMIN then none
  else
    match unlockTarget sheet.status with
    | none => none
    | some t =>
      if confirmOk then
        if reason ≠ "" then some { sheet with status := t } else none
      else none

/-- The edit guard `isLocked` of `StagingSheet`: a sheet in LOCKED, COMPLETED
or STAGING_VERIFICATION_PENDING is read-only for non-admins, and a DRAFT is
read-only for non-admins other than its creator. -/
def isLockedView (sheet : SheetData) (user : Option UserCtx) : Bool :=
  let notAdmin : Bool := match user with
    | some u => !(u.role == .ADMIN)
    | none => true
  ((sheet.status == .LOCKED || sheet.status == .COMPLETED ||
      sheet.status == .STAGING_VERIFICATION_PENDING) && notAdmin) ||
    (sheet.status == .DRAFT &&
      (match user with
       | some u => !(sheet.createdBy == u.username)
       | none => true) &&
      notAdmin)

/-- The `canApprove` gate of `StagingSheet`: shift leads and admins. -/
def canApproveRole (user : Option UserCtx) : Bool :=
  match user with
  | some u => u.role == .SHIFT_LEAD || u.role == .ADMIN
  | none => false

/-- Modelled from the spec: the loading sheet component is not part of the
source snapshot; per section 4.1 the loading supervisor's submission moves a
LOCKED sheet to LOADING_VERIFICATION_PENDING. -/
def loadingSubmitStep (sheet : SheetData) : Option SheetData :=
  if sheet.status = .LOCKED then
    some { sheet with status := .LOADING_VERIFICATION_PENDING }
  else none

/-- Modelled from the spec: the loading sheet component is not part of the
source snapshot; per section 4.1 a shift-lead/admin approval moves a
LOADING_VERIFICATION_PENDING sheet to COMPLETED. -/
def loadingApproveStep (user : Option UserCtx) (sheet : SheetData) :
    Option SheetData :=
  if sheet.status = .LOADING_VERIFICATION_PENDING ∧ canApproveRole user then
    some { sheet with status := .COMPLETED }
  else none

/-- The operations the UI offers on an existing sheet. -/
inductive SheetOp where
  | saveDraft (form : SaveForm)
  | requestVerification (form : SaveForm)
  | slApprove
  | slReject (reason : String)
  | loadingSubmit
  | loadingApprove
  | adminUnlock (reason : String)
deriving DecidableEq, Repr

/-- One UI step on an existing sheet: each operation is guarded as the
components guard it, and its effect is the corresponding handler's write. -/
def uiStep (user : Option UserCtx) (now hid : String) (sheet : SheetData) :
    SheetOp → Option SheetData
  | .saveDraft form =>
    if isLockedView sheet user then none
    else (handleSave (some sheet) form user "" now false false []).written
  | .requestVerification form =>
    if isLockedView sheet user then none
    else (handleSave (some sheet) form user "" now false true []).written
  | .slApprove =>
    if sheet.status = .STAGING_VERIFICATION_PENDING ∧ canApproveRole user then
      handleApprove sheet user now true true "" hid
    else none
  | .slReject reason =>
    if sheet.status = .STAGING_VERIFICATION_PENDING ∧ canApproveRole user then
      handleApprove sheet user now false true reason hid
    else none
  | .loadingSubmit => loadingSubmitStep sheet
  | .loadingApprove => loadingApproveStep user sheet
  | .adminUnlock reason =>
    match user with
    | some u => handleUnlockSheet u.role sheet true reason
    | none => none

/-! ## Incidents (`AdminDashboard`, incidents view) -/

/-- Incident lifecycle states (`IncidentStatus`). -/
inductive IncidentStatus where
  | OPEN
  | IN_PROGRESS
  | ON_HOLD
  | RESOLVED
deriving DecidableEq, Repr

/-- An incident record (`Incident`), restricted to the fields the verified
operations read or write. -/
structure Incident where
  id : String
  sheetId : String
  type : String
  description : String
  priority : String
  status : IncidentStatus
  createdBy : String
  createdAt : String
  resolvedAt : Option String
  resolvedBy : Option String
  resolutionNotes : Option String
  assignedDepartment : Option String
deriving DecidableEq, Repr

/-- The function `handleResolve` of the incident control center: set the
status and the resolution notes, and when the new status is RESOLVED also
stamp `resolvedAt` with the current time and `resolvedBy` with the current
user (falling back to the literal `Admin`). -/
def handleResolve (inc : Incident) (notes : String) (st : IncidentStatus)
    (now : String) (user : Option String) : Incident :=
  let base := { inc with status := st, resolutionNotes := some notes }
  if st = .RESOLVED then
    { base with resolvedAt := some now,
                resolvedBy := some (jsOrStr (user.getD "") "Admin") }
  else base

/-- The actions offered in the incidents table's actions column. -/
inductive IncidentAction where
  | markInProgress
  | putOnHold (reason : String)
  | resolveIt (note : String)
deriving DecidableEq, Repr

/-- One UI step on an incident: the whole actions block is withheld for
RESOLVED incidents; the in-progress button is hidden when already in
progress, the hold button when already on hold; hold and resolve require a
non-empty prompt answer. -/
def uiIncidentStep (inc : Incident) (now : String) (user : Option String) :
    IncidentAction → Option Incident
  | .markInProgress =>
    if inc.status ≠ .RESOLVED ∧ inc.status ≠ .IN_PROGRESS then
      some (handleResolve inc "Started Work" .IN_PROGRESS now user)
    else none
  | .putOnHold reason =>
    if inc.status ≠ .RESOLVED ∧ inc.status ≠ .ON_HOLD ∧ reason ≠ "" then
      some (handleResolve inc reason .ON_HOLD now user)
    else none
  | .resolveIt note =>
    if inc.status ≠ .RESOLVED ∧ note ≠ "" then
      some (handleResolve inc note .RESOLVED now user)
    else none

/-! ## Filtering and sorting (`AdminDashboard`, database views) -/

/-- String value of a status as stored in the backend and in URL filters. -/
def statusStr : SheetStatus → String
  | .DRAFT => "DRAFT"
  | .STAGING_VERIFICATION_PENDING => "STAGING_VERIFICATION_PENDING"
  | .LOCKED => "LOCKED"
  | .LOADING_VERIFICATION_PENDING => "LOADING_VERIFICATION_PENDING"
  | .COMPLETED => "COMPLETED"

/-- Is the status one of the two verification-pending states? -/
def isPendingStatus (st : SheetStatus) : Bool :=
  st == .STAGING_VERIFICATION_PENDING || st == .LOADING_VERIFICATION_PENDING

/-- The `VIEW_SCOPES` table: statuses visible in each workflow view. -/
def viewScope (v : String) : Option (List SheetStatus) :=
  if v = "staging-db" then
    some [.DRAFT, .STAGING_VERIFICATION_PENDING, .LOCKED]
  else if v = "loading-db" then
    some [.LOCKED, .LOADING_VERIFICATION_PENDING, .COMPLETED]
  else none

/-- JavaScript `<` on two `getTime()` results, where `none` is `NaN`:
a comparison involving `NaN` is false. -/
def jsLtOpt (a b : Option Int) : Bool :=
  match a, b with
  | some x, some y => x < y
  | _, _ => false

/-- JavaScript `>` on two `getTime()` results, where `none` is `NaN`. -/
def jsGtOpt (a b : Option Int) : Bool :=
  match a, b with
  | some x, some y => x > y
  | _, _ => false

/-- The helper `resolveUserName`: a truthy primary name wins; otherwise the
fallback username is looked up among the users and its full name (or the
username) is used; a falsy fallback yields nothing. -/
def resolveUserName (users : List UserCtx) (primary : Option String)
    (fallback : Option String) : Option String :=
  let fromFallback := match fallback with
    | none => none
    | some fb =>
      if fb = "" then none
      else
        match users.find? (fun u => u.username == fb) with
        | some u => some (jsOrStr u.fullName u.username)
        | none => some fb
  match primary with
  | some p => if p ≠ "" then some p else fromFallback
  | none => fromFallback

/-- The filter state of the database views (search term, URL status filter,
global filters).  `statusFilter` is the `status` URL parameter. -/
structure FilterCtx where
  viewMode : String
  searchTerm : String
  statusFilter : Option String
  dateRangeStart : String
  dateRangeEnd : String
  supervisorFilter : String
  locationFilter : String
  durationFilter : String
deriving DecidableEq, Repr

/-- Truthiness of an optional string (undefined and the empty string are
falsy). -/
def truthy : Option String → Bool
  | none => false
  | some v => v ≠ ""

/-- The free-text search conjunct of `filteredSheets`. -/
def matchesSearch (s : SheetData) (searchTerm : String) : Bool :=
  let term := jsToLower searchTerm
  jsIncludes (jsToLower s.id) term ||
    jsIncludes (jsToLower s.supervisorName) term ||
    (match s.loadingSvName with
     | some v => jsIncludes (jsToLower v) term
     | none => false) ||
    (match s.completedBy with
     | some v => v ≠ "" && jsIncludes (jsToLower v) term
     | none => false) ||
    (match s.driverName with
     | some v => v ≠ "" && jsIncludes (jsToLower v) term
     | none => false) ||
    (match s.vehicleNo with
     | some v => v ≠ "" && jsIncludes (jsToLower v) term
     | none => false) ||
    (s.destination ≠ "" && jsIncludes (jsToLower s.destination) term)

/-- The status conjunct of `filteredSheets`: a truthy URL filter other than
ALL forces exact equality; otherwise the approvals view restricts to the two
pending states. -/
def statusGate (ctx : FilterCtx) (s : SheetData) : Bool :=
  if truthy ctx.statusFilter && ctx.statusFilter.getD "" != "ALL" then
    statusStr s.status == ctx.statusFilter.getD ""
  else if ctx.viewMode == "approvals" then isPendingStatus s.status
  else true

/-- The workflow-scope conjunct of `filteredSheets`. -/
def scopeGate (ctx : FilterCtx) (s : SheetData) : Bool :=
  match viewScope ctx.viewMode with
  | some allowed => allowed.contains s.status
  | none => true

/-- The date-range conjunct of `filteredSheets`: a sheet is excluded when its
parsed date is strictly before the start or strictly after the end; `NaN`
comparisons exclude nothing. -/
def dateGate (parse : String → Option Int) (ctx : FilterCtx) (s : SheetData) :
    Bool :=
  (ctx.dateRangeStart == "" || !jsLtOpt (parse s.date) (parse ctx.dateRangeStart)) &&
    (ctx.dateRangeEnd == "" || !jsGtOpt (parse s.date) (parse ctx.dateRangeEnd))

/-- The supervisor conjunct of `filteredSheets`. -/
def supervisorGate (users : List UserCtx) (ctx : FilterCtx) (s : SheetData) :
    Bool :=
  if ctx.supervisorFilter != "ALL" then
    let sv := ((resolveUserName users (some s.supervisorName) (some s.createdBy)).map
      jsToLower).getD ""
    let ldg := ((resolveUserName users s.loadingSvName s.completedBy).map
      jsToLower).getD ""
    let f := jsToLower ctx.supervisorFilter
    jsIncludes sv f || jsIncludes ldg f
  else true

/-- The location conjunct of `filteredSheets`. -/
def locationGate (ctx : FilterCtx) (s : SheetData) : Bool :=
  if ctx.locationFilter != "ALL" then
    s.destination ≠ "" &&
      jsIncludes (jsToLower s.destination) (jsToLower ctx.locationFilter)
  else true

/-- JavaScript `>=` against a constant threshold, `none` being `NaN`. -/
def jsGeMsOpt (a : Option Int) (t : Int) : Bool :=
  match a with
  | some x => x ≥ t
  | none => false

/-- JavaScript `<=` against a constant threshold, `none` being `NaN`. -/
def jsLeMsOpt (a : Option Int) (t : Int) : Bool :=
  match a with
  | some x => x ≤ t
  | none => false

/-- Minute thresholds of the duration filter, expressed exactly in epoch
milliseconds (`mins = diff / 60000` compared against 30, 60 and 120). -/
def durationGate (parse : String → Option Int) (ctx : FilterCtx)
    (s : SheetData) : Bool :=
  if ctx.durationFilter != "ALL" then
    if s.createdAt ≠ "" && truthy s.completedAt then
      let diff : Option Int :=
        match s.completedAt.bind parse, parse s.createdAt with
        | some c, some a => some (c - a)
        | _, _ => none
      if ctx.durationFilter == "UNDER_30" && jsGeMsOpt diff 1800000 then false
      else if ctx.durationFilter == "30_60" &&
          (jsLtOpt diff (some 1800000) || jsGtOpt diff (some 3600000)) then false
      else if ctx.durationFilter == "OVER_60" && jsLeMsOpt diff 3600000 then false
      else if ctx.durationFilter == "OVER_120" && jsLeMsOpt diff 7200000 then false
      else true
    else false
  else true

/-- The whole per-sheet predicate of `filteredSheets`. -/
def sheetMatches (users : List UserCtx) (parse : String → Option Int)
    (ctx : FilterCtx) (s : SheetData) : Bool :=
  statusGate ctx s && scopeGate ctx s && dateGate parse ctx s &&
    supervisorGate users ctx s && locationGate ctx s &&
    durationGate parse ctx s && matchesSearch s ctx.searchTerm

/-- The filtering stage of `filteredSheets`. -/
def filteredSheets (users : List UserCtx) (parse : String → Option Int)
    (ctx : FilterCtx) (sheets : List SheetData) : List SheetData :=
  sheets.filter (sheetMatches users parse ctx)

/-! ## A stable sort modelling the stable `Array.prototype.sort` -/

/-- Stable insertion: the new element, which comes earlier in the input than
everything already inserted, goes before the first element it may precede. -/
def stableInsert {α : Type} (le : α → α → Bool) (a : α) : List α → List α
  | [] => [a]
  | b :: l => if le a b then a :: b :: l else b :: stableInsert le a l

/-- Stable insertion sort: the reference semantics of the stable
`Array.prototype.sort` for a consistent comparator. -/
def stableSort {α : Type} (le : α → α → Bool) : List α → List α
  | [] => []
  | a :: l => stableInsert le a (stableSort le l)

/-- The order induced by a JavaScript comparator: `a` may precede `b` unless
the comparator is strictly positive; a `NaN` comparator result (`none`)
keeps the existing order, like a zero result. -/
def jsSortLe {α : Type} (cmp : α → α → Option Int) (a b : α) : Bool :=
  match cmp a b with
  | some v => v ≤ 0
  | none => true

theorem stableInsert_perm {α : Type} (le : α → α → Bool) (a : α) :
    ∀ l : List α, List.Perm (stableInsert le a l) (a :: l)
  | [] => List.Perm.refl _
  | b :: l => by
    simp only [stableInsert]
    split
    · exact List.Perm.refl _
    · exact ((stableInsert_perm le a l).cons b).trans (List.Perm.swap a b l)

theorem stableSort_perm {α : Type} (le : α → α → Bool) :
    ∀ l : List α, List.Perm (stableSort le l) l
  | [] => List.Perm.refl _
  | a :: l =>
    (stableInsert_perm le a (stableSort le l)).trans
      ((stableSort_perm le l).cons a)

theorem mem_stableInsert {α : Type} (le : α → α → Bool) (a x : α)
    (l : List α) : x ∈ stableInsert le a l ↔ x = a ∨ x ∈ l := by
  rw [(stableInsert_perm le a l).mem_iff, List.mem_cons]

theorem mem_stableSort {α : Type} (le : α → α → Bool) (x : α) (l : List α) :
    x ∈ stableSort le l ↔ x ∈ l :=
  (stableSort_perm le l).mem_iff

theorem pairwise_stableInsert {α : Type} (le : α → α → Bool) (a : α) :
    ∀ l : List α,
      (∀ b ∈ l, le a b = true ∨ le b a = true) →
      (∀ b ∈ l, ∀ c ∈ l, le a b = true → le b c = true → le a c = true) →
      l.Pairwise (fun x y => le x y = true) →
      (stableInsert le a l).Pairwise (fun x y => le x y = true)
  | [], _, _, _ => List.pairwise_singleton _ a
  | b :: l, htot, htrans, hl => by
    simp only [stableInsert]
    rcases List.pairwise_cons.1 hl with ⟨hbl, hl'⟩
    by_cases hab : le a b = true
    · simp only [hab, if_true]
      refine List.pairwise_cons.2 ⟨?_, hl⟩
      intro c hc
      rcases List.mem_cons.1 hc with rfl | hc'
      · exact hab
      · exact htrans b (List.mem_cons_self b l) c (List.mem_cons_of_mem b hc')
          hab (hbl c hc')
    · rw [if_neg hab]
      refine List.pairwise_cons.2 ⟨?_, ?_⟩
      · intro c hc
        rcases (mem_stableInsert le a c l).1 hc with hca | hc'
        · subst hca
          rcases htot b (List.mem_cons_self b l) with h | h
          · exact absurd h hab
          · exact h
        · exact hbl c hc'
      · exact pairwise_stableInsert le a l
          (fun x hx => htot x (List.mem_cons_of_mem b hx))
          (fun x hx y hy => htrans x (List.mem_cons_of_mem b hx)
            y (List.mem_cons_of_mem b hy))
          hl'

theorem pairwise_stableSort {α : Type} (le : α → α → Bool) :
    ∀ l : List α,
      (∀ a ∈ l, ∀ b ∈ l, le a b = true ∨ le b a = true) →
      (∀ a ∈ l, ∀ b ∈ l, ∀ c ∈ l,
        le a b = true → le b c = true → le a c = true) →
      (stableSort le l).Pairwise (fun x y => le x y = true)
  | [], _, _ => List.Pairwise.nil
  | a :: l, htot, htrans => by
    simp only [stableSort]
    refine pairwise_stableInsert le a (stableSort le l) ?_ ?_ ?_
    · intro b hb
      exact htot a (List.mem_cons_self a l) b
        (List.mem_cons_of_mem a ((mem_stableSort le b l).1 hb))
    · intro b hb c hc
      exact htrans a (List.mem_cons_self a l)
        b (List.mem_cons_of_mem a ((mem_stableSort le b l).1 hb))
        c (List.mem_cons_of_mem a ((mem_stableSort le c l).1 hc))
    · exact pairwise_stableSort le l
        (fun x hx y hy => htot x (List.mem_cons_of_mem a hx)
          y (List.mem_cons_of_mem a hy))
        (fun x hx y hy z hz => htrans x (List.mem_cons_of_mem a hx)
          y (List.mem_cons_of_mem a hy) z (List.mem_cons_of_mem a hz))

theorem filter_stableInsert_of_key {α : Type} (le : α → α → Bool)
    (p : α → Bool) (a : α) (hpa : p a = true)
    (hle : ∀ b, p b = true → le a b = true) :
    ∀ l : List α,
      (stableInsert le a l).filter p = a :: l.filter p
  | [] => by simp [stableInsert, hpa]
  | b :: l => by
    simp only [stableInsert]
    by_cases hab : le a b = true
    · rw [if_pos hab]
      simp [List.filter_cons, hpa]
    · have hpb : p b = false := by
        cases hb : p b
        · rfl
        · exact absurd (hle b hb) hab
      rw [if_neg hab]
      simp only [List.filter_cons, hpb, Bool.false_eq_true, if_false]
      exact filter_stableInsert_of_key le p a hpa hle l

theorem filter_stableInsert_of_not_key {α : Type} (le : α → α → Bool)
    (p : α → Bool) (a : α) (hpa : p a = false) :
    ∀ l : List α, (stableInsert le a l).filter p = l.filter p
  | [] => by simp [stableInsert, hpa]
  | b :: l => by
    simp only [stableInsert]
    by_cases hab : le a b = true
    · rw [if_pos hab]
      simp [List.filter_cons, hpa]
    · rw [if_neg hab]
      simp only [List.filter_cons]
      rw [filter_stableInsert_of_not_key le p a hpa l]

theorem filter_stableSort_key {α : Type} (le : α → α → Bool) (p : α → Bool)
    (hle : ∀ a b, p a = true → p b = true → le a b = true) :
    ∀ l : List α, (stableSort le l).filter p = l.filter p
  | [] => rfl
  | a :: l => by
    simp only [stableSort, List.filter_cons]
    cases hpa : p a
    · rw [filter_stableInsert_of_not_key le p a hpa,
        filter_stableSort_key le p hle l]
      simp
    · rw [filter_stableInsert_of_key le p a hpa (fun b hb => hle a b hpa hb),
        filter_stableSort_key le p hle l]
      simp

/-! ## The date-like branch of the `filteredSheets` comparator -/

/-- Is the sort key treated as a date column (`key === 'date' ||
key.includes('Time') || key.includes('At')`)? -/
def isDateKey (key : String) : Bool :=
  key == "date" || jsIncludes key "Time" || jsIncludes key "At"

/-- The string value of the sorted column, with the supervisor columns
replaced by their resolved names as in the source. -/
def sheetFieldStr (users : List UserCtx) (key : String) (s : SheetData) :
    Option String :=
  if key == "supervisorName" then
    some ((resolveUserName users (some s.supervisorName) (some s.createdBy)).getD "")
  else if key == "loadingSvName" then
    some ((resolveUserName users s.loadingSvName s.completedBy).getD "")
  else if key == "date" then some s.date
  else if key == "createdAt" then some s.createdAt
  else if key == "lockedAt" then s.lockedAt
  else if key == "completedAt" then s.completedAt
  else if key == "stagingApprovedAt" then s.stagingApprovedAt
  else if key == "id" then some s.id
  else if key == "status" then some (statusStr s.status)
  else if key == "destination" then some s.destination
  else none

/-- The epoch value `new Date(val).getTime()` of the sorted column, `none`
standing for `NaN` (unparsable or missing value). -/
def dateKeyEpoch (users : List UserCtx) (parse : String → Option Int)
    (key : String) (s : SheetData) : Option Int :=
  (sheetFieldStr users key s).bind parse

/-- The date-like branch of the comparator: `asc ? dA - dB : dB - dA`, with
`none` (`NaN`) absorbing. -/
def cmpDateKey (users : List UserCtx) (parse : String → Option Int)
    (key : String) (asc : Bool) (a b : SheetData) : Option Int :=
  match dateKeyEpoch users parse key a, dateKeyEpoch users parse key b with
  | some x, some y => some (if asc then x - y else y - x)
  | _, _ => none

/-- The sorting stage of `filteredSheets` for a date-like column. -/
def sortSheetsByDateKey (users : List UserCtx) (parse : String → Option Int)
    (key : String) (asc : Bool) (l : List SheetData) : List SheetData :=
  stableSort (jsSortLe (cmpDateKey users parse key asc)) l

/-! ## Helper lemmas -/

theorem validateForm_not_strict (d k : String) (items : List FormItem) :
    validateForm d k items false = [] := by
  simp [validateForm]

theorem validateForm_nil_iff (d k : String) (items : List FormItem) :
    validateForm d k items true = [] ↔
      (jsTrim d ≠ "" ∧ jsTrim k ≠ "" ∧ ∃ it ∈ items, jsTrim it.skuName ≠ "") := by
  unfold validateForm
  by_cases hD : jsTrim d = ""
  · simp [hD]
  · by_cases hK : jsTrim k = ""
    · simp [hD, hK]
    · have hiff : (items.any fun it => jsTrim it.skuName ≠ "") = true ↔
          ∃ it ∈ items, jsTrim it.skuName ≠ "" := by
        simp [List.any_eq_true]
      cases ha : (items.any fun it => jsTrim it.skuName ≠ "") with
      | false =>
        have hno : ¬ ∃ it ∈ items, jsTrim it.skuName ≠ "" := by
          rw [← hiff, ha]
          simp
        simp [hD, hK, ha, hno]
      | true =>
        have hyes : ∃ it ∈ items, jsTrim it.skuName ≠ "" := hiff.1 ha
        simp [hD, hK, ha, hyes]

theorem statusStr_locked_iff (st : SheetStatus) :
    statusStr st = "LOCKED" ↔ st = .LOCKED := by
  cases st <;> simp [statusStr]

theorem totalQty_eq_sum (items : List FormItem) :
    totalQty items = (items.map (fun it => blankZero it.ttlCases)).sum := by
  have h : ∀ (l : List FormItem) (a : Int),
      l.foldl (fun acc it => acc + blankZero it.ttlCases) a =
        a + (l.map (fun it => blankZero it.ttlCases)).sum := by
    intro l
    induction l with
    | nil => intro a; simp
    | cons h t ih =>
      intro a
      simp only [List.foldl_cons, List.map_cons, List.sum_cons, ih, add_assoc]
  simpa [totalQty] using h items 0

theorem forall₂_map_self {β γ : Type} (l : List β) (f : β → γ)
    (P : β → γ → Prop) (h : ∀ x ∈ l, P x (f x)) : List.Forall₂ P l (l.map f) := by
  induction l with
  | nil => exact List.Forall₂.nil
  | cons a t ih =>
    exact List.Forall₂.cons (h a (List.mem_cons_self a t))
      (ih (fun x hx => h x (List.mem_cons_of_mem a hx)))

/-! ## Claims -/

/-- C3: submitting a sheet for staging verification requires a non-empty
destination, a non-empty loading dock number and at least one line item with
a non-empty SKU name; when validation fails, the submission is rejected with
the flat list of messages, no write is performed and the advisory-lock set is
untouched (so no status change occurs). -/
theorem submit_validation_C3 (existingSheet : Option SheetData)
    (form : SaveForm) (user : Option UserCtx) (newId now : String)
    (saveThrows : Bool) (locks : List String) :
    (validateForm form.destination form.loadingDockNo form.items true = [] ↔
      (jsTrim form.destination ≠ "" ∧ jsTrim form.loadingDockNo ≠ "" ∧
        ∃ it ∈ form.items, jsTrim it.skuName ≠ "")) ∧
    (validateForm form.destination form.loadingDockNo form.items true ≠ [] →
      handleSave existingSheet form user newId now saveThrows true locks =
        { outcome := .validationFailed
            (validateForm form.destination form.loadingDockNo form.items true),
          locks := locks, written := none }) := by
  refine ⟨validateForm_nil_iff form.destination form.loadingDockNo form.items, ?_⟩
  intro herr
  unfold handleSave
  rw [if_pos (List.length_pos.2 herr)]

/-- Witness for C3: a concrete submission with an empty destination is
rejected with a validation message, nothing is written and the advisory-lock
set is unchanged. -/
theorem submit_validation_C3_witness :
    validateForm "" "D1" [mkFormItem 1 "A" none none none none] true ≠ [] ∧
    handleSave none
        { shift := "A", date := "1/1/2024", destination := "",
          supervisorName := "Sup", empCode := "E2", loadingDockNo := "D1",
          items := [mkFormItem 1 "A" none none none none] }
        none "SH-9" "t0" false true [] =
      { outcome := .validationFailed ["Destination is required"],
        locks := [], written := none } := by
  have h := submit_validation_C3 none
    { shift := "A", date := "1/1/2024", destination := "",
      supervisorName := "Sup", empCode := "E2", loadingDockNo := "D1",
      items := [mkFormItem 1 "A" none none none none] }
    none "SH-9" "t0" false []
  have herr : validateForm "" "D1" [mkFormItem 1 "A" none none none none] true ≠ [] := by
    decide
  refine ⟨herr, ?_⟩
  have h2 := h.2 herr
  have hv : validateForm "" "D1" [mkFormItem 1 "A" none none none none] true =
      ["Destination is required"] := by decide
  rw [h2, hv]

/-- C4: the admin unlock maps COMPLETED to LOADING_VERIFICATION_PENDING,
LOCKED to STAGING_VERIFICATION_PENDING and either PENDING status to DRAFT;
it is available only to admins, requires a non-empty free-text reason before
any write, and the written sheet differs from the original in the status
field alone. -/
theorem admin_unlock_C4 (role : Role) (sheet : SheetData) (confirmOk : Bool)
    (reason : String) :
    (unlockTarget .COMPLETED = some .LOADING_VERIFICATION_PENDING ∧
      unlockTarget .LOCKED = some .STAGING_VERIFICATION_PENDING ∧
      unlockTarget .LOADING_VERIFICATION_PENDING = some .DRAFT ∧
      unlockTarget .STAGING_VERIFICATION_PENDING = some .DRAFT ∧
      unlockTarget .DRAFT = none) ∧
    (role ≠ .ADMIN → handleUnlockSheet role sheet confirmOk reason = none) ∧
    (reason = "" → handleUnlockSheet role sheet confirmOk reason = none) ∧
    (∀ s', handleUnlockSheet role sheet confirmOk reason = some s' →
      role = .ADMIN ∧ confirmOk = true ∧ reason ≠ "" ∧
        unlockTarget sheet.status = some s'.status ∧
        s' = { sheet with status := s'.status }) ∧
    (role = .ADMIN → confirmOk = true → reason ≠ "" →
      ∀ t, unlockTarget sheet.status = some t →
        handleUnlockSheet role sheet confirmOk reason =
          some { sheet with status := t }) := by
  refine ⟨⟨rfl, rfl, rfl, rfl, rfl⟩, ?_, ?_, ?_, ?_⟩
  · intro hrole
    simp [handleUnlockSheet, hrole]
  · intro hr
    unfold handleUnlockSheet
    split
    · rfl
    · split
      · rfl
      · split
        · split
          · next h => exact absurd hr h
          · rfl
        · rfl
  · intro s' hs'
    unfold handleUnlockSheet at hs'
    split at hs'
    · cases hs'
    · next hrole =>
      split at hs'
      · cases hs'
      · next t ht =>
        split at hs'
        · split at hs'
          · next hc hr =>
            have heq := Option.some.inj hs'
            refine ⟨not_not.1 hrole, hc, hr, ?_, ?_⟩
            · rw [ht, ← heq]
            · rw [← heq]
          · cases hs'
        · cases hs'
  · intro hrole hc hr t ht
    simp [handleUnlockSheet, hrole, hc, hr, ht]

/-- Witness for C4: an admin unlock of a concrete LOCKED sheet with a reason
writes the same sheet with status STAGING_VERIFICATION_PENDING only. -/
theorem admin_unlock_C4_witness :
    handleUnlockSheet .ADMIN
        { id := "SH-1", status := .LOCKED, version := 0, shift := "A",
          date := "1/1/2024", destination := "Depot", supervisorName := "Sup",
          empCode := "E2", loadingDockNo := "D1", stagingItems := [],
          loadingItems := [], additionalItems := [], createdBy := "sup1",
          createdAt := "t0", completedBy := none, completedAt := none,
          lockedBy := none, lockedAt := none, stagingApprovedBy := none,
          stagingApprovedAt := none, slSign := none, rejectionReason := none,
          loadingSvName := none, driverName := none, vehicleNo := none,
          history := [] }
        true "data entry slip" =
      some { id := "SH-1", status := .STAGING_VERIFICATION_PENDING,
             version := 0, shift := "A", date := "1/1/2024",
             destination := "Depot", supervisorName := "Sup", empCode := "E2",
             loadingDockNo := "D1", stagingItems := [], loadingItems := [],
             additionalItems := [], createdBy := "sup1", createdAt := "t0",
             completedBy := none, completedAt := none, lockedBy := none,
             lockedAt := none, stagingApprovedBy := none,
             stagingApprovedAt := none, slSign := none,
             rejectionReason := none, loadingSvName := none,
             driverName := none, vehicleNo := none, history := [] } := by
  exact (admin_unlock_C4 .ADMIN _ true "data entry slip").2.2.2.2 rfl rfl
    (by decide) .STAGING_VERIFICATION_PENDING rfl

/-- C7: resolving an incident sets its status to RESOLVED, stamps
`resolvedAt` with the current time and `resolvedBy` with the resolving
user's identity, and afterwards every incident action offered by the UI is
withheld, so no further status change is possible. -/
theorem incident_resolve_C7 (inc : Incident) (note now : String) (u : String)
    (hn : note ≠ "") (hu : u ≠ "") (hst : inc.status ≠ .RESOLVED) :
    uiIncidentStep inc now (some u) (.resolveIt note) =
      some (handleResolve inc note .RESOLVED now (some u)) ∧
    (handleResolve inc note .RESOLVED now (some u)).status = .RESOLVED ∧
    (handleResolve inc note .RESOLVED now (some u)).resolvedAt = some now ∧
    (handleResolve inc note .RESOLVED now (some u)).resolvedBy = some u ∧
    (handleResolve inc note .RESOLVED now (some u)).resolutionNotes = some note ∧
    (∀ (now' : String) (user' : Option String) (act : IncidentAction),
      uiIncidentStep (handleResolve inc note .RESOLVED now (some u)) now' user'
        act = none) := by
  have hres : (handleResolve inc note .RESOLVED now (some u)).status =
      .RESOLVED := by
    simp [handleResolve]
  refine ⟨?_, hres, ?_, ?_, ?_, ?_⟩
  · simp [uiIncidentStep, hst, hn]
  · simp [handleResolve]
  · simp [handleResolve, jsOrStr, hu]
  · simp [handleResolve]
  · intro now' user' act
    cases act <;> simp [uiIncidentStep, hres]

/-- Witness for C7: resolving a concrete OPEN incident. -/
theorem incident_resolve_C7_witness :
    uiIncidentStep
        { id := "I1", sheetId := "SH-1", type := "DAMAGE",
          description := "dented cases", priority := "HIGH", status := .OPEN,
          createdBy := "sup1", createdAt := "t0", resolvedAt := none,
          resolvedBy := none, resolutionNotes := none,
          assignedDepartment := none }
        "t1" (some "lead1") (.resolveIt "replaced stock") =
      some { id := "I1", sheetId := "SH-1", type := "DAMAGE",
             description := "dented cases", priority := "HIGH",
             status := .RESOLVED, createdBy := "sup1", createdAt := "t0",
             resolvedAt := some "t1", resolvedBy := some "lead1",
             resolutionNotes := some "replaced stock",
             assignedDepartment := none } :=
  (incident_resolve_C7
    { id := "I1", sheetId := "SH-1", type := "DAMAGE",
      description := "dented cases", priority := "HIGH", status := .OPEN,
      createdBy := "sup1", createdAt := "t0", resolvedAt := none,
      resolvedBy := none, resolutionNotes := none,
      assignedDepartment := none }
    "replaced stock" "t1" "lead1" (by decide) (by decide) (by decide)).1

/-- C9: every staging item persisted by a save stores
`ttlCases = casesPerPlt * fullPlt + loose` with blank fields as 0; the live
recomputation of `handleItemChange` maintains the same identity on the form
rows, and under that invariant the displayed Total Staging Qty equals the sum
of the persisted `ttlCases` over all items. -/
theorem staging_total_C9 (items : List FormItem) :
    (∀ it ∈ items, (finalizeItem it).ttlCases =
      blankZero it.casesPerPlt * blankZero it.fullPlt + blankZero it.loose) ∧
    (∀ (it : FormItem) (f : ItemField),
      blankZero (applyItemChange it f).ttlCases =
        blankZero (applyItemChange it f).casesPerPlt *
          blankZero (applyItemChange it f).fullPlt +
          blankZero (applyItemChange it f).loose) ∧
    ((∀ it ∈ items, blankZero it.ttlCases =
        blankZero it.casesPerPlt * blankZero it.fullPlt + blankZero it.loose) →
      totalQty items =
        ((items.map finalizeItem).map StagingItem.ttlCases).sum) := by
  refine ⟨?_, ?_, ?_⟩
  · intro it _
    simp [finalizeItem]
  · intro it f
    cases f <;> simp [applyItemChange, blankZero]
  · intro hinv
    rw [totalQty_eq_sum, List.map_map]
    congr 1
    apply List.map_congr_left
    intro it hit
    simp [finalizeItem, Function.comp, hinv it hit]

/-- Serial numbers are the consecutive run 1..n matching row positions. -/
abbrev srNoConsecutive (l : List FormItem) : Prop :=
  l.map FormItem.srNo = List.range' 1 l.length

theorem reindexFrom_length (k : Nat) :
    ∀ l : List FormItem, (reindexFrom k l).length = l.length := by
  intro l
  induction l generalizing k with
  | nil => rfl
  | cons h t ih => simp [reindexFrom, ih]

theorem reindexFrom_map_srNo :
    ∀ (l : List FormItem) (k : Nat),
      (reindexFrom k l).map FormItem.srNo = List.range' k l.length
  | [], _ => rfl
  | h :: t, k => by
    simp [reindexFrom, List.range'_succ, reindexFrom_map_srNo t (k + 1)]

theorem removeAt_length_ge :
    ∀ (l : List FormItem) (i : Nat), l.length - 1 ≤ (removeAt l i).length
  | [], _ => by simp [removeAt]
  | _ :: t, 0 => by simp [removeAt]
  | h :: t, k + 1 => by
    have := removeAt_length_ge t k
    simp only [removeAt, List.length_cons]
    omega

/-- C10 (implicit): the staging row editing operations preserve the invariant
that serial numbers are consecutive 1..n matching row positions — a confirmed
removal re-indexes every remaining row and an addition appends a row with
`srNo = length + 1` — and the list never becomes empty, because deleting the
last remaining row is refused. -/
theorem item_list_invariant_C10 (items : List FormItem) (index : Nat)
    (confirmOk : Bool) (hinv : srNoConsecutive items) (hne : items ≠ []) :
    srNoConsecutive (handleRemoveItem items index confirmOk) ∧
    handleRemoveItem items index confirmOk ≠ [] ∧
    srNoConsecutive (handleAddItem items) ∧
    (handleAddItem items).getLast? =
      some { srNo := items.length + 1, skuName := "", casesPerPlt := none,
             fullPlt := none, loose := none, ttlCases := none } ∧
    (items.length ≤ 1 → handleRemoveItem items index confirmOk = items) ∧
    (1 < items.length → confirmOk = true →
      handleRemoveItem items index confirmOk = reindex (removeAt items index)) := by
  have hreidx : ∀ l : List FormItem, srNoConsecutive (reindex l) := by
    intro l
    unfold srNoConsecutive reindex
    rw [reindexFrom_map_srNo, reindexFrom_length]
  refine ⟨?_, ?_, ?_, ?_, ?_, ?_⟩
  · unfold handleRemoveItem
    split
    · exact hinv
    · split
      · exact hreidx _
      · exact hinv
  · unfold handleRemoveItem
    split
    · exact hne
    · next hlen =>
      split
      · intro hempty
        have h1 := removeAt_length_ge items index
        have h2 : (reindex (removeAt items index)).length =
            (removeAt items index).length := reindexFrom_length 1 _
        rw [hempty] at h2
        simp only [List.length_nil] at h2
        omega
      · exact hne
  · unfold srNoConsecutive handleAddItem
    simp only [List.map_append, List.length_append, List.map_cons,
      List.map_nil, List.length_cons, List.length_nil]
    rw [hinv]
    rw [show items.length + (0 + 1) = items.length + 1 by omega,
      List.range'_concat]
    simp [Nat.add_comm]
  · unfold handleAddItem
    rw [List.getLast?_concat]
  · intro hlen
    unfold handleRemoveItem
    rw [if_pos hlen]
  · intro hlen hc
    unfold handleRemoveItem
    rw [if_neg (by omega), if_pos hc]

/-- Witness for C10: removing the first of two rows and adding a row to a
concrete consecutive list. -/
theorem item_list_invariant_C10_witness :
    srNoConsecutive (handleRemoveItem
      [mkFormItem 1 "A" none none none none,
       mkFormItem 2 "B" none none none none] 0 true) ∧
    handleRemoveItem
      [mkFormItem 1 "A" none none none none,
       mkFormItem 2 "B" none none none none] 0 true ≠ [] :=
  ⟨(item_list_invariant_C10
      [mkFormItem 1 "A" none none none none,
       mkFormItem 2 "B" none none none none] 0 true (by decide)
      (by decide)).1,
   (item_list_invariant_C10
      [mkFormItem 1 "A" none none none none,
       mkFormItem 2 "B" none none none none] 0 true (by decide)
      (by decide)).2.1⟩

/-- The staging total already recorded on a pre-existing loading row with the
same serial number, 0 when no such row exists. -/
def priorTotalOf (prior : List LoadingItemData) (s : StagingItem) : Int :=
  match prior.find? (fun li => li.skuSrNo = s.srNo) with
  | some li => li.total
  | none => 0

/-- Counterexample to C2 as stated: when the sheet already carries a loading
row for serial 1 with total 3, re-deriving at lock time yields balance 7, not
the staging item's frozen `ttlCases` of 10. -/
theorem lock_derivation_C2_counterexample :
    (deriveLoadingItems [mkStagingItem 1 "A" 5 2 0 10]
        [{ skuSrNo := 1, cells := [], looseInput := 0, total := 3,
           balance := 7 }]).map LoadingItemData.balance = [7] ∧
    ([7] : List Int) ≠ [10] := by decide

/-- C2 (amended): at lock time the derived loading list has exactly one entry
per staging item with non-empty name and positive total, in order; each entry
carries `balance = ttlCases - total` of the carried-over pre-existing loading
row with the same serial number (so `balance = ttlCases` with `total = 0` and
empty cells for newly created entries); locking {A: ttlCases=10, B: unnamed 0}
yields exactly one loading item, for A, with balance 10; and a fixed 5-row
additionalItems skeleton is seeded if absent. -/
theorem lock_derivation_C2 (finalItems : List StagingItem)
    (prior : List LoadingItemData) (additional : List AdditionalItem) :
    (∀ it, it ∈ validStagingItems finalItems ↔
      (it ∈ finalItems ∧ it.skuName ≠ "" ∧ it.ttlCases > 0)) ∧
    List.Forall₂
      (fun s o => o.skuSrNo = s.srNo ∧
        o.balance = s.ttlCases - priorTotalOf prior s ∧
        (prior.find? (fun li => li.skuSrNo = s.srNo) = none →
          o = { skuSrNo := s.srNo, cells := [], looseInput := 0, total := 0,
                balance := s.ttlCases }))
      (validStagingItems finalItems) (deriveLoadingItems finalItems prior) ∧
    (additional = [] → seedAdditionalIfAbsent additional = seededAdditionalItems) ∧
    (additional ≠ [] → seedAdditionalIfAbsent additional = additional) ∧
    seededAdditionalItems.length = 5 ∧
    deriveLoadingItems
        [mkStagingItem 1 "A" 5 2 0 10, mkStagingItem 2 "" 0 0 0 0] [] =
      [{ skuSrNo := 1, cells := [], looseInput := 0, total := 0,
         balance := 10 }] := by
  refine ⟨?_, ?_, ?_, ?_, by decide, by decide⟩
  · intro it
    simp [validStagingItems, List.mem_filter]
  · unfold deriveLoadingItems
    apply forall₂_map_self
    intro s _
    cases hfind : prior.find? (fun li => li.skuSrNo = s.srNo) with
    | none =>
      refine ⟨?_, ?_, ?_⟩
      · simp [hfind]
      · simp [hfind, priorTotalOf]
      · intro _
        simp [hfind]
    | some li0 =>
      have hsr : li0.skuSrNo = s.srNo := by
        have hp := List.find?_some hfind
        simpa using hp
      refine ⟨?_, ?_, ?_⟩
      · simp [hfind, hsr]
      · simp [hfind, priorTotalOf]
      · intro hnone
        cases hnone
  · intro h
    simp [seedAdditionalIfAbsent, h]
  · intro h
    simp [seedAdditionalIfAbsent, List.length_eq_zero, h]

/-- Witness for C2 (amended): the fresh derivation of the concrete example. -/
theorem lock_derivation_C2_witness :
    List.Forall₂
      (fun s o => o.skuSrNo = s.srNo ∧
        o.balance = s.ttlCases - priorTotalOf [] s ∧
        (([] : List LoadingItemData).find? (fun li => li.skuSrNo = s.srNo) = none →
          o = { skuSrNo := s.srNo, cells := [], looseInput := 0, total := 0,
                balance := s.ttlCases }))
      (validStagingItems
        [mkStagingItem 1 "A" 5 2 0 10, mkStagingItem 2 "" 0 0 0 0])
      (deriveLoadingItems
        [mkStagingItem 1 "A" 5 2 0 10, mkStagingItem 2 "" 0 0 0 0] []) :=
  (lock_derivation_C2
    [mkStagingItem 1 "A" 5 2 0 10, mkStagingItem 2 "" 0 0 0 0] [] []).2.1

theorem charsContain_nil (l : List Char) : charsContain [] l = true := by
  cases l with
  | nil => rfl
  | cons c t => simp [charsContain, List.isPrefixOf]

theorem matchesSearch_empty (s : SheetData) : matchesSearch s "" = true := by
  unfold matchesSearch
  have h : (jsToLower "").data = [] := rfl
  simp [jsIncludes, h, charsContain_nil]

/-- A concrete parse function for the C5 analysis: the range bounds d0/d9
and the date d1 parse; anything else is `NaN`. -/
def c5Parse : String → Option Int := fun d =>
  if d = "d0" then some 50
  else if d = "d1" then some 100
  else if d = "d9" then some 900
  else none

/-- The C5 filter state: URL status filter LOCKED, date range d0..d9, every
other filter at its default. -/
def c5Ctx : FilterCtx :=
  { viewMode := "database", searchTerm := "", statusFilter := some "LOCKED",
    dateRangeStart := "d0", dateRangeEnd := "d9", supervisorFilter := "ALL",
    locationFilter := "ALL", durationFilter := "ALL" }

/-- A concrete LOCKED sheet with the given date, used by the C5 analysis. -/
def c5LockedSheet (d : String) : SheetData :=
  { id := "SH-1", status := .LOCKED, version := 0, shift := "A", date := d,
    destination := "Depot", supervisorName := "Sup", empCode := "E2",
    loadingDockNo := "D1", stagingItems := [], loadingItems := [],
    additionalItems := [], createdBy := "sup1", createdAt := "t0",
    completedBy := none, completedAt := none, lockedBy := none,
    lockedAt := none, stagingApprovedBy := none, stagingApprovedAt := none,
    slSign := none, rejectionReason := none, loadingSvName := none,
    driverName := none, vehicleNo := none, history := [] }

/-- Counterexample to C5 as stated: with the status filter LOCKED and the
date range d0..d9 set, a LOCKED sheet whose date does not parse (so its date
falls in no range) is still returned — the `NaN` comparisons of the date
gate exclude nothing — refuting "no sheet outside the filter is returned". -/
theorem filter_locked_range_C5_counterexample :
    c5LockedSheet "garbage" ∈
      filteredSheets [] c5Parse c5Ctx [c5LockedSheet "garbage"] ∧
    c5Parse (c5LockedSheet "garbage").date = none := by decide

/-- C5 (amended): with the URL status filter LOCKED, a date range set, and
every other filter at its default, a sheet is returned by the filter exactly
when its status is LOCKED and its date, whenever it parses, lies in the
inclusive range [start, end]; a sheet whose date does not parse is never
excluded by the date range, because its `NaN` comparisons are false. -/
theorem filter_locked_range_C5 (users : List UserCtx)
    (parse : String → Option Int) (sheets : List SheetData)
    (startStr endStr : String) (st en : Int) (s : SheetData)
    (hs : startStr ≠ "") (he : endStr ≠ "")
    (hps : parse startStr = some st) (hpe : parse endStr = some en)
    (hmem : s ∈ sheets) :
    (s ∈ filteredSheets users parse
        { viewMode := "database", searchTerm := "",
          statusFilter := some "LOCKED", dateRangeStart := startStr,
          dateRangeEnd := endStr, supervisorFilter := "ALL",
          locationFilter := "ALL", durationFilter := "ALL" } sheets ↔
      (s.status = .LOCKED ∧
        ∀ e : Int, parse s.date = some e → st ≤ e ∧ e ≤ en)) := by
  have h1 : (startStr == "") = false := by
    simpa using hs
  have h2 : (endStr == "") = false := by
    simpa using he
  rw [filteredSheets, List.mem_filter]
  simp only [hmem, true_and]
  unfold sheetMatches statusGate scopeGate dateGate supervisorGate
    locationGate durationGate
  cases hd : parse s.date with
  | none =>
    simp [truthy, viewScope, matchesSearch_empty, h1, h2, hd, hps, hpe,
      jsLtOpt, jsGtOpt, statusStr_locked_iff]
  | some e =>
    simp [truthy, viewScope, matchesSearch_empty, h1, h2, hd, hps, hpe,
      jsLtOpt, jsGtOpt, statusStr_locked_iff, Int.not_lt, and_assoc]

/-- Witness for C5 (amended): a concrete LOCKED sheet dated inside the range
is returned. -/
theorem filter_locked_range_C5_witness :
    c5LockedSheet "d1" ∈
      filteredSheets [] c5Parse c5Ctx [c5LockedSheet "d1"] :=
  (filter_locked_range_C5 [] c5Parse [c5LockedSheet "d1"] "d0" "d9" 50 900
    (c5LockedSheet "d1") (by decide) (by decide) (by decide) (by decide)
    (List.mem_cons_self _ _)).2
    ⟨rfl, by
      intro e he
      have hd : c5Parse (c5LockedSheet "d1").date = some 100 := by decide
      rw [hd] at he
      have h100 := Option.some.inj he
      rw [← h100]
      decide⟩

/-- C8: before a lock transition the advisory edit-lock acquisition is
all-or-nothing — when the id is already held the transition is blocked and no
write occurs, the lock set being left unchanged — and the lock is released
after the save completes on the success path only: when the backend write
throws, the id stays in the lock set. -/
theorem advisory_lock_C8 (existingSheet : Option SheetData) (form : SaveForm)
    (user : Option UserCtx) (newId now : String) (saveThrows : Bool)
    (locks : List String)
    (hvalid : validateForm form.destination form.loadingDockNo form.items true = []) :
    (savedSheetId existingSheet newId ∈ locks →
      acquireLock locks (savedSheetId existingSheet newId) = (false, locks)) ∧
    (savedSheetId existingSheet newId ∉ locks →
      (acquireLock locks (savedSheetId existingSheet newId)).1 = true) ∧
    (savedSheetId existingSheet newId ∈ locks →
      handleSave existingSheet form user newId now saveThrows true locks =
        { outcome := .lockBlocked, locks := locks, written := none }) ∧
    (savedSheetId existingSheet newId ∉ locks → saveThrows = false →
      (handleSave existingSheet form user newId now saveThrows true locks).written =
        some (builtSheet existingSheet form user newId now true) ∧
      savedSheetId existingSheet newId ∉
        (handleSave existingSheet form user newId now saveThrows true locks).locks) ∧
    (savedSheetId existingSheet newId ∉ locks → saveThrows = true →
      (handleSave existingSheet form user newId now saveThrows true locks).written =
        none ∧
      savedSheetId existingSheet newId ∈
        (handleSave existingSheet form user newId now saveThrows true locks).locks) := by
  refine ⟨?_, ?_, ?_, ?_, ?_⟩
  · intro hmem
    simp [acquireLock, hmem]
  · intro hmem
    simp [acquireLock, hmem]
  · intro hmem
    simp [handleSave, hvalid, acquireLock, hmem]
  · intro hmem hth
    subst hth
    simp [handleSave, hvalid, acquireLock, hmem, releaseLock]
  · intro hmem hth
    subst hth
    simp [handleSave, hvalid, acquireLock, hmem]

/-- Witness for C8: a concrete valid lock save with the id already held is
blocked, and one with a free id that throws keeps the id locked. -/
theorem advisory_lock_C8_witness :
    handleSave none
        { shift := "A", date := "1/1/2024", destination := "Depot",
          supervisorName := "Sup", empCode := "E2", loadingDockNo := "D1",
          items := [mkFormItem 1 "A" (some 5) (some 2) none (some 10)] }
        none "SH-9" "t0" false true ["SH-9"] =
      { outcome := .lockBlocked, locks := ["SH-9"], written := none } :=
  (advisory_lock_C8 none
    { shift := "A", date := "1/1/2024", destination := "Depot",
      supervisorName := "Sup", empCode := "E2", loadingDockNo := "D1",
      items := [mkFormItem 1 "A" (some 5) (some 2) none (some 10)] }
    none "SH-9" "t0" false ["SH-9"] (by decide)).2.2.1 (by decide)

theorem jsSortLe_total {users : List UserCtx} {parse : String → Option Int}
    {key : String} (a b : SheetData) :
    jsSortLe (cmpDateKey users parse key false) a b = true ∨
      jsSortLe (cmpDateKey users parse key false) b a = true := by
  unfold jsSortLe cmpDateKey
  cases ha : dateKeyEpoch users parse key a with
  | none => cases hb : dateKeyEpoch users parse key b <;> simp
  | some x =>
    cases hb : dateKeyEpoch users parse key b with
    | none => simp
    | some y => simp; omega

theorem jsSortLe_of_epochs {users : List UserCtx} {parse : String → Option Int}
    {key : String} {a b : SheetData} {x y : Int}
    (ha : dateKeyEpoch users parse key a = some x)
    (hb : dateKeyEpoch users parse key b = some y) :
    jsSortLe (cmpDateKey users parse key false) a b = true ↔ y ≤ x := by
  unfold jsSortLe cmpDateKey
  rw [ha, hb]
  simp [sub_nonpos]

/-- C6: sorting by a date-like column (key equal to `date` or containing
`Time` or `At`) in descending order places sheets with newer timestamps
first by epoch comparison — when every sort-key value parses, the result is
a permutation of the input, pairwise ordered by non-increasing epoch — ties
are broken stably by input order (the subsequence at any fixed epoch equals
the input subsequence), and a sheet whose date value does not parse makes
the comparator return `NaN` against any other sheet. -/
theorem sort_datekey_desc_C6 (users : List UserCtx)
    (parse : String → Option Int) (key : String) (l : List SheetData)
    (hkey : isDateKey key = true)
    (hall : ∀ s ∈ l, (dateKeyEpoch users parse key s).isSome) :
    List.Perm (sortSheetsByDateKey users parse key false l) l ∧
    (sortSheetsByDateKey users parse key false l).Pairwise (fun a b =>
      (dateKeyEpoch users parse key b).getD 0 ≤
        (dateKeyEpoch users parse key a).getD 0) ∧
    (∀ e : Int,
      (sortSheetsByDateKey users parse key false l).filter
          (fun x => dateKeyEpoch users parse key x == some e) =
        l.filter (fun x => dateKeyEpoch users parse key x == some e)) ∧
    (∀ a b : SheetData, dateKeyEpoch users parse key a = none →
      cmpDateKey users parse key false a b = none ∧
      cmpDateKey users parse key false b a = none) := by
  refine ⟨stableSort_perm _ l, ?_, ?_, ?_⟩
  · have hp := pairwise_stableSort (jsSortLe (cmpDateKey users parse key false)) l
      (fun a _ b _ => jsSortLe_total a b)
      ?_
    · refine hp.imp_of_mem ?_
      intro a b hma hmb hle
      have hma' := (mem_stableSort _ a l).1 hma
      have hmb' := (mem_stableSort _ b l).1 hmb
      rcases Option.isSome_iff_exists.1 (hall a hma') with ⟨x, hx⟩
      rcases Option.isSome_iff_exists.1 (hall b hmb') with ⟨y, hy⟩
      rw [hx, hy]
      simpa using (jsSortLe_of_epochs hx hy).1 hle
    · intro a hma b hmb c hmc hab hbc
      rcases Option.isSome_iff_exists.1 (hall a hma) with ⟨x, hx⟩
      rcases Option.isSome_iff_exists.1 (hall b hmb) with ⟨y, hy⟩
      rcases Option.isSome_iff_exists.1 (hall c hmc) with ⟨z, hz⟩
      rw [jsSortLe_of_epochs hx hz]
      exact le_trans ((jsSortLe_of_epochs hy hz).1 hbc)
        ((jsSortLe_of_epochs hx hy).1 hab)
  · intro e
    apply filter_stableSort_key
    intro a b hpa hpb
    have ha : dateKeyEpoch users parse key a = some e := by simpa using hpa
    have hb : dateKeyEpoch users parse key b = some e := by simpa using hpb
    rw [jsSortLe_of_epochs ha hb]
  · intro a b ha
    unfold cmpDateKey
    rw [ha]
    constructor
    · rfl
    · cases dateKeyEpoch users parse key b <;> rfl

/-- Witness for C6: sorting two concrete sheets with parsable dates by the
`date` column in descending order. -/
theorem sort_datekey_desc_C6_witness :
    List.Perm
      (sortSheetsByDateKey []
        (fun d => if d = "d1" then some 100 else
          if d = "d2" then some 200 else none) "date" false
        [{ id := "SH-1", status := SheetStatus.LOCKED, version := 0,
           shift := "A", date := "d1", destination := "Depot",
           supervisorName := "Sup", empCode := "E2", loadingDockNo := "D1",
           stagingItems := [], loadingItems := [], additionalItems := [],
           createdBy := "sup1", createdAt := "t0", completedBy := none,
           completedAt := none, lockedBy := none, lockedAt := none,
           stagingApprovedBy := none, stagingApprovedAt := none,
           slSign := none, rejectionReason := none, loadingSvName := none,
           driverName := none, vehicleNo := none, history := [] },
         { id := "SH-2", status := SheetStatus.LOCKED, version := 0,
           shift := "A", date := "d2", destination := "Depot",
           supervisorName := "Sup", empCode := "E2", loadingDockNo := "D1",
           stagingItems := [], loadingItems := [], additionalItems := [],
           createdBy := "sup1", createdAt := "t0", completedBy := none,
           completedAt := none, lockedBy := none, lockedAt := none,
           stagingApprovedBy := none, stagingApprovedAt := none,
           slSign := none, rejectionReason := none, loadingSvName := none,
           driverName := none, vehicleNo := none, history := [] }])
      [{ id := "SH-1", status := SheetStatus.LOCKED, version := 0,
         shift := "A", date := "d1", destination := "Depot",
         supervisorName := "Sup", empCode := "E2", loadingDockNo := "D1",
         stagingItems := [], loadingItems := [], additionalItems := [],
         createdBy := "sup1", createdAt := "t0", completedBy := none,
         completedAt := none, lockedBy := none, lockedAt := none,
         stagingApprovedBy := none, stagingApprovedAt := none,
         slSign := none, rejectionReason := none, loadingSvName := none,
         driverName := none, vehicleNo := none, history := [] },
       { id := "SH-2", status := SheetStatus.LOCKED, version := 0,
         shift := "A", date := "d2", destination := "Depot",
         supervisorName := "Sup", empCode := "E2", loadingDockNo := "D1",
         stagingItems := [], loadingItems := [], additionalItems := [],
         createdBy := "sup1", createdAt := "t0", completedBy := none,
         completedAt := none, lockedBy := none, lockedAt := none,
         stagingApprovedBy := none, stagingApprovedAt := none,
         slSign := none, rejectionReason := none, loadingSvName := none,
         driverName := none, vehicleNo := none, history := [] }] :=
  (sort_datekey_desc_C6 []
    (fun d => if d = "d1" then some 100 else
      if d = "d2" then some 200 else none) "date" _ (by decide)
    (by decide)).1

/-- Is the operation the explicit admin regression (unlock)? -/
def isUnlockOp : SheetOp → Bool
  | .adminUnlock _ => true
  | _ => false

/-- A concrete sheet pending staging verification, used by the C1 analysis. -/
def sampleSheet : SheetData :=
  { id := "SH-1", status := .STAGING_VERIFICATION_PENDING, version := 0,
    shift := "A", date := "1/1/2024", destination := "Depot",
    supervisorName := "Sup", empCode := "E2", loadingDockNo := "D1",
    stagingItems := [mkStagingItem 1 "A" 5 2 0 10], loadingItems := [],
    additionalItems := [], createdBy := "sup1", createdAt := "t0",
    completedBy := none, completedAt := none, lockedBy := none,
    lockedAt := none, stagingApprovedBy := none, stagingApprovedAt := none,
    slSign := none, rejectionReason := none, loadingSvName := none,
    driverName := none, vehicleNo := none, history := [] }

/-- A concrete shift lead, used by the C1 analysis. -/
def sampleLead : UserCtx :=
  { username := "lead1", fullName := "Lead One", empCode := "E1",
    role := .SHIFT_LEAD }

/-- The result of the sample rejection in the C1 analysis. -/
def sampleRejected : SheetData :=
  { sampleSheet with
    status := .DRAFT
    rejectionReason := some "bad pallet"
    history := [{ id := "h1", actor := "lead1", action := "REJECTED_STAGING",
                  timestamp := "t1", details := "Rejected: bad pallet " }] }

/-- A concrete admin, used by the C1 analysis. -/
def sampleAdmin : UserCtx :=
  { username := "admin1", fullName := "Admin One", empCode := "E0",
    role := .ADMIN }

/-- A concrete staging form, used by the C1 analysis. -/
def sampleForm : SaveForm :=
  { shift := "A", date := "1/1/2024", destination := "Depot",
    supervisorName := "Sup", empCode := "E2", loadingDockNo := "D1",
    items := [mkFormItem 1 "A" (some 5) (some 2) none (some 10)] }

/-- Counterexample to C1 as stated: the shift-lead rejection — one of the
operations the UI offers and not the admin unlock — moves a
STAGING_VERIFICATION_PENDING sheet backwards to DRAFT; moreover, an admin
(whom the edit guard never stops) re-saving a COMPLETED sheet as a draft
regresses it to DRAFT outside the unlock action as well. -/
theorem forward_only_C1_counterexample :
    ((uiStep (some sampleLead) "t1" "h1" sampleSheet
        (.slReject "bad pallet")).map SheetData.status =
      some SheetStatus.DRAFT ∧
    isUnlockOp (.slReject "bad pallet") = false ∧
    statusIndex .DRAFT < statusIndex sampleSheet.status) ∧
    ((uiStep (some sampleAdmin) "t1" "h1"
        { sampleSheet with status := .COMPLETED }
        (.saveDraft sampleForm)).map SheetData.status =
      some SheetStatus.DRAFT ∧
    isUnlockOp (.saveDraft sampleForm) = false ∧
    statusIndex .DRAFT < statusIndex SheetStatus.COMPLETED) := by decide

/-- What each successful UI operation is allowed to do to the status: the
approve-side operations move it forward, the admin unlock regresses it per
its fixed map, the rejection returns a pending sheet to DRAFT, and the
staging save operations stamp a fixed status whatever the previous one was. -/
def forwardSpec (sheet s' : SheetData) : SheetOp → Prop
  | .slApprove => statusIndex sheet.status ≤ statusIndex s'.status
  | .loadingSubmit => statusIndex sheet.status ≤ statusIndex s'.status
  | .loadingApprove => statusIndex sheet.status ≤ statusIndex s'.status
  | .saveDraft _ => s'.status = .DRAFT
  | .requestVerification _ => s'.status = .STAGING_VERIFICATION_PENDING
  | .slReject _ => sheet.status = .STAGING_VERIFICATION_PENDING ∧
      s'.status = .DRAFT
  | .adminUnlock _ => unlockTarget sheet.status = some s'.status

/-- C1 (amended): every successful UI operation on a sheet moves the status
forward through the five-state sequence, except that the admin unlock
regresses it per its fixed map, the shift-lead rejection returns a
STAGING_VERIFICATION_PENDING sheet to DRAFT, and the staging save /
request-verification operations stamp the status to DRAFT respectively
STAGING_VERIFICATION_PENDING unconditionally, whatever the previous status
was (reachable backwards for editors the guard does not stop: admins on any
sheet and anyone on a LOADING_VERIFICATION_PENDING sheet). -/
theorem forward_only_C1 (user : Option UserCtx) (now hid : String)
    (sheet : SheetData) (op : SheetOp) (s' : SheetData)
    (h : uiStep user now hid sheet op = some s') :
    forwardSpec sheet s' op := by
  cases op with
  | saveDraft form =>
    simp only [uiStep] at h
    split at h
    · cases h
    · simp only [handleSave, validateForm_not_strict, List.length_nil,
        gt_iff_lt, lt_self_iff_false, if_false, Bool.false_eq_true,
        Option.some.injEq] at h
      show s'.status = SheetStatus.DRAFT
      rw [← h]
      rfl
  | requestVerification form =>
    simp only [uiStep] at h
    split at h
    · cases h
    · by_cases hv :
        (validateForm form.destination form.loadingDockNo form.items true).length > 0
      · simp only [handleSave, if_pos hv] at h
        cases h
      · simp only [handleSave, if_neg hv, acquireLock, savedSheetId,
          List.not_mem_nil, if_false, if_true, Bool.not_true,
          Bool.false_eq_true, Option.some.injEq] at h
        show s'.status = SheetStatus.STAGING_VERIFICATION_PENDING
        rw [← h]
        rfl
  | slApprove =>
    simp only [uiStep] at h
    split at h
    · next hguard =>
      simp only [handleApprove, if_true] at h
      split at h
      all_goals
        simp only [Option.some.injEq] at h
        have hs' : s'.status = SheetStatus.LOCKED := by rw [← h]
        show statusIndex sheet.status ≤ statusIndex s'.status
        rw [hguard.1, hs']
        decide
    · cases h
  | slReject reason =>
    simp only [uiStep] at h
    split at h
    · next hguard =>
      simp only [handleApprove, Bool.false_eq_true, if_false] at h
      split at h
      · simp only [Option.some.injEq] at h
        have hs' : s'.status = SheetStatus.DRAFT := by rw [← h]
        exact ⟨hguard.1, hs'⟩
      · cases h
    · cases h
  | loadingSubmit =>
    simp only [uiStep] at h
    unfold loadingSubmitStep at h
    split at h
    · next hst =>
      simp only [Option.some.injEq] at h
      have hs' : s'.status = SheetStatus.LOADING_VERIFICATION_PENDING := by
        rw [← h]
      show statusIndex sheet.status ≤ statusIndex s'.status
      rw [hst, hs']
      decide
    · cases h
  | loadingApprove =>
    simp only [uiStep] at h
    unfold loadingApproveStep at h
    split at h
    · next hst =>
      simp only [Option.some.injEq] at h
      have hs' : s'.status = SheetStatus.COMPLETED := by rw [← h]
      show statusIndex sheet.status ≤ statusIndex s'.status
      rw [hst.1, hs']
      decide
    · cases h
  | adminUnlock reason =>
    simp only [uiStep] at h
    cases user with
    | none => cases h
    | some u =>
      have h0 : handleUnlockSheet u.role sheet true reason = some s' := h
      unfold handleUnlockSheet at h0
      by_cases hrole : u.role = Role.ADMIN
      · rw [if_neg (by simp [hrole])] at h0
        cases ht : unlockTarget sheet.status with
        | none =>
          rw [ht] at h0
          cases h0
        | some t =>
          rw [ht] at h0
          have h' : (if reason ≠ "" then
              some { sheet with status := t } else none) = some s' := h0
          by_cases hr : reason ≠ ""
          · rw [if_pos hr] at h'
            simp only [Option.some.injEq] at h'
            show unlockTarget sheet.status = some s'.status
            rw [ht, ← h']
          · rw [if_neg hr] at h'
            cases h'
      · rw [if_pos (by simp [hrole])] at h0
        cases h0

/-- Witness for C1 (amended): the sample rejection instantiates the rejection
branch of the amended statement. -/
theorem forward_only_C1_witness :
    sampleSheet.status = .STAGING_VERIFICATION_PENDING ∧
    sampleRejected.status = .DRAFT :=
  forward_only_C1 (some sampleLead) "t1" "h1" sampleSheet
    (.slReject "bad pallet") sampleRejected (by decide)

/-- Witness for C9: a concrete form with one computed row and one blank row;
the displayed total 10 equals the persisted totals' sum. -/
theorem staging_total_C9_witness :
    totalQty [mkFormItem 1 "A" (some 5) (some 2) none (some 10),
              mkFormItem 2 "" none none none none] =
      (([mkFormItem 1 "A" (some 5) (some 2) none (some 10),
          mkFormItem 2 "" none none none none].map finalizeItem).map
        StagingItem.ttlCases).sum :=
  (staging_total_C9 [mkFormItem 1 "A" (some 5) (some 2) none (some 10),
    mkFormItem 2 "" none none none none]).2.2 (by decide)

end Warehouse
